import Mathlib

/-!
Shallow embedding of the paperwork.py local-mirror / synchronization engine
(`paperworks/models.py` over `paperworks/wrapper.py`).

Python dictionaries (`Notebook.notes`, `Paperwork.notebooks`, `Paperwork.tags`)
are modelled as association lists with Python-dict semantics: assignment to an
existing key replaces the value in place, assignment to a fresh key appends,
`del` removes the entry.  `updated_at` timestamps are opaque strings compared
lexicographically, exactly as Python compares `str`.  Remote calls issued by an
operation are recorded in a trace; the remote service is a parameter
(`Remote`), and a call that the wrapper would answer with `None` (a transport
failure or an unsuccessful envelope) is modelled by `Option.none`.  Python code
that would raise on such a `None` (e.g. subscripting it) is modelled with
`Except`.
-/

namespace Paperworks

/-- Association list with Python-dict semantics, keys are the integer ids. -/
abbrev Dict (β : Type) : Type := List (Nat × β)

/-- `d[k]` lookup, `None` when absent. -/
def dictGet {β : Type} : Dict β → Nat → Option β
  | [], _ => none
  | p :: rest, k => if p.1 = k then some p.2 else dictGet rest k

/-- `d[k] = v`: replace in place when the key exists, append otherwise. -/
def dictInsert {β : Type} : Dict β → Nat → β → Dict β
  | [], k, v => [(k, v)]
  | p :: rest, k, v => if p.1 = k then (k, v) :: rest else p :: dictInsert rest k v

/-- `del d[k]` (on the dicts of this program keys are unique). -/
def dictDelete {β : Type} : Dict β → Nat → Dict β
  | [], _ => []
  | p :: rest, k => if p.1 = k then dictDelete rest k else p :: dictDelete rest k

/-- Lexicographic comparison of code-point lists: exactly Python's `str`
`<`. -/
def pyStrLtAux : List Char → List Char → Bool
  | _, [] => false
  | [], _ :: _ => true
  | a :: as, b :: bs =>
    if a.toNat < b.toNat then true
    else if b.toNat < a.toNat then false
    else pyStrLtAux as bs

/-- Python `a < b` on strings. -/
def strLt (a b : String) : Bool :=
  pyStrLtAux a.data b.data

/-- Python `a <= b` on strings: `¬ (b < a)` under the total order. -/
def strLe (a b : String) : Bool :=
  !(strLt b a)

/-- Stable insertion that keeps earlier elements with an equal key in front,
matching Python's stable `sorted`. -/
def insertByTitle {α : Type} (key : α → String) (x : α) : List α → List α
  | [] => [x]
  | y :: ys => if strLt (key x) (key y) then x :: y :: ys else y :: insertByTitle key x ys

/-- `sorted(l, key=...)` — stable sort by a string key. -/
def sortByTitle {α : Type} (key : α → String) (l : List α) : List α :=
  l.foldl (fun acc x => insertByTitle key x acc) []

/-! ## Wire representations (`to_json` images and remote payloads) -/

/-- `Notebook.to_json()`: `{'type': ..., 'id': ..., 'title': ...}`. -/
structure NotebookJson where
  type : Nat
  id : Nat
  title : String
  deriving Repr, DecidableEq

/-- `Note.to_json()`: tags are serialised by id (each `tag.to_json()` carries
`id`, `title`, `visibility`; the id is what identifies it). -/
structure NoteJson where
  id : Nat
  title : String
  content : String
  tags : List Nat
  notebook_id : Nat
  deriving Repr, DecidableEq

/-- Payload of `api.get_notebook`: the fields `Notebook.update` reads. -/
structure RemoteNotebook where
  title : String
  updated_at : String
  deriving Repr, DecidableEq

/-- Payload of `api.get_note`: the fields `Note.update` reads. -/
structure RemoteNote where
  title : String
  content : String
  updated_at : String
  deriving Repr, DecidableEq

/-- Wire form of a tag in `api.list_tags()`. -/
structure TagJson where
  id : Nat
  title : String
  visibility : Nat
  deriving Repr, DecidableEq

/-- Wire form of a notebook in `api.list_notebooks()`. -/
structure NotebookWire where
  id : Nat
  title : String
  type : Nat
  deriving Repr, DecidableEq

/-- Wire form of a note in `api.list_notebook_notes()`; `tags` holds the ids
appearing in the note's `tags` array. -/
structure NoteWire where
  id : Nat
  title : String
  content : String
  updated_at : String
  tags : List Nat
  deriving Repr, DecidableEq

/-- One remote call issued through the api wrapper. -/
inductive ApiCall where
  | getNotebook (id : Nat)
  | updateNotebook (nb : NotebookJson)
  | deleteNotebook (id : Nat)
  | getNote (notebookId : Nat) (noteId : Nat)
  | updateNote (n : NoteJson)
  | deleteNote (n : NoteJson)
  | moveNote (n : NoteJson) (newNotebookId : Nat)
  deriving Repr, DecidableEq

/-- The remote service as seen through the wrapper: each operation either
returns its parsed payload or `none` (transport failure / unsuccessful
envelope — `api.request` returns `None` in both cases). `putNotebook` and
`putNote` return the server's response to a write; the engine reads
`updated_at` out of the note response and discards the notebook response. -/
structure Remote where
  notebook : Nat → Option RemoteNotebook
  note : Nat → Nat → Option RemoteNote
  putNotebook : NotebookJson → Option String
  putNote : NoteJson → Option String
  listTags : Option (List TagJson)
  listNotebooks : Option (List NotebookWire)
  listNotebookNotes : Nat → Option (List NoteWire)

/-! ## Entity graph -/

/-- `Tag`: id, title, visibility, plus the relationship set `self.notes`
(modelled by the ids of the member notes; it is created empty in
`Tag.__init__`). -/
structure Tag where
  id : Nat
  title : String
  visibility : Nat
  notes : List Nat
  deriving Repr, DecidableEq

/-- `Tag.from_json`. -/
def Tag.from_json (j : TagJson) : Tag :=
  { id := j.id, title := j.title, visibility := j.visibility, notes := [] }

/-- `Tag.get_notes`: the relationship set, sorted.  The Python version sorts
by note title; on the ids recorded here we keep the set as a list — what the
claims need is only which notes are in it. -/
def Tag.get_notes (t : Tag) : List Nat :=
  t.notes

/-- `Note`: `notebook` is the id of the owning notebook (the Python object
holds a reference; the reference is used for its `id` and its api handle).
`tags` is the set of attached tag ids (`self.tags = set()` initially). -/
structure Note where
  id : Nat
  title : String
  content : String
  updated_at : String
  tags : List Nat
  notebook : Nat
  deriving Repr, DecidableEq

/-- `Note.to_json()`. -/
def Note.to_json (n : Note) : NoteJson :=
  { id := n.id, title := n.title, content := n.content, tags := n.tags,
    notebook_id := n.notebook }

/-- `Note.add_tags(tags)`: adds each tag to the note's tag set (set semantics:
adding a present element changes nothing). -/
def Note.add_tags (n : Note) (ts : List Nat) : Note :=
  { n with tags := ts.foldl (fun acc t => if t ∈ acc then acc else acc ++ [t]) n.tags }

/-- `Notebook`. -/
structure Notebook where
  id : Nat
  title : String
  type : Nat
  updated_at : String
  notes : Dict Note
  deriving Repr, DecidableEq

/-- `Notebook.to_json()`. -/
def Notebook.to_json (nb : Notebook) : NotebookJson :=
  { type := nb.type, id := nb.id, title := nb.title }

/-- `Notebook.from_json`: `updated_at` is set to `''`, `notes` to `{}`. -/
def Notebook.from_json (j : NotebookWire) : Notebook :=
  { id := j.id, title := j.title, type := j.type, updated_at := "", notes := [] }

/-- `Notebook.add_note(note)`: `self.notes[note.id] = note`. -/
def Notebook.add_note (nb : Notebook) (n : Note) : Notebook :=
  { nb with notes := dictInsert nb.notes n.id n }

/-- `Notebook.get_notes()`: note values sorted by title (stable). -/
def Notebook.get_notes (nb : Notebook) : List Note :=
  sortByTitle Note.title (nb.notes.map Prod.snd)

/-- `Paperwork` (the workspace root).  The api handle and the authenticated
flag take no part in the reconciliation logic; the remote service is passed
to each operation. -/
structure Paperwork where
  notebooks : Dict Notebook
  tags : Dict Tag
  deriving Repr, DecidableEq

/-! ## Reconciliation: per-entity update -/

/-- `Notebook.update(self, force=True)` — the source's default for `force`
is `True`.  Fetch the remote counterpart; when it is absent, log and leave
the notebook untouched; when `force` or the remote timestamp is strictly
below the local one, push (`api.update_notebook(self.to_json())`, response
discarded); otherwise pull title and `updated_at` from the remote snapshot.
Returns the notebook after the call plus the issued remote calls. -/
def Notebook.update (r : Remote) (force : Bool) (nb : Notebook) :
    Notebook × List ApiCall :=
  match r.notebook nb.id with
  | none => (nb, [ApiCall.getNotebook nb.id])
  | some rem =>
    if force || strLt rem.updated_at nb.updated_at then
      (nb, [ApiCall.getNotebook nb.id, ApiCall.updateNotebook nb.to_json])
    else
      ({ nb with title := rem.title, updated_at := rem.updated_at },
       [ApiCall.getNotebook nb.id])

/-- `Note.update(self, force=False)` — the source's default for `force` is
`False`.  Fetch the remote counterpart; absent ⇒ log, no mutation.  When
`force` or the remote timestamp is less than **or equal to** the local one,
push: `self.updated_at = api.update_note(self.to_json())['updated_at']` —
when that write fails (`None` response) the subscription raises, modelled by
`Except.error`.  Otherwise pull title, content and `updated_at`. -/
def Note.update (r : Remote) (force : Bool) (n : Note) :
    List ApiCall × Except Unit Note :=
  match r.note n.notebook n.id with
  | none => ([ApiCall.getNote n.notebook n.id], Except.ok n)
  | some rem =>
    if force || strLe rem.updated_at n.updated_at then
      match r.putNote n.to_json with
      | some ua =>
        ([ApiCall.getNote n.notebook n.id, ApiCall.updateNote n.to_json],
         Except.ok { n with updated_at := ua })
      | none =>
        ([ApiCall.getNote n.notebook n.id, ApiCall.updateNote n.to_json],
         Except.error ())
    else
      ([ApiCall.getNote n.notebook n.id],
       Except.ok { n with title := rem.title, content := rem.content,
                          updated_at := rem.updated_at })

/-! ## Deletion, move, insertion -/

/-- `Notebook.delete(self)`: the entire body is
`self.api.delete_notebook(self.id)` — one remote call.  The class holds no
reference to the workspace, so no local collection is (or can be) touched;
the value of the function is exactly the issued call list. -/
def Notebook.delete (nb : Notebook) : List ApiCall :=
  [ApiCall.deleteNotebook nb.id]

/-- Running `ws.notebooks[id].delete()` in the context of a workspace: the
method issues its remote call and returns; the workspace value is unchanged
because `Notebook.delete` performs no local mutation. -/
def Paperwork.runNotebookDelete (ws : Paperwork) (id : Nat) :
    Paperwork × List ApiCall :=
  match dictGet ws.notebooks id with
  | some nb => (ws, Notebook.delete nb)
  | none => (ws, [])

/-- `Note.delete(self)`: `api.delete_note(self.to_json())`, then
`del self.notebook.notes[self.id]`.  `nb` is the owning notebook (the object
`self.notebook` references). -/
def Note.delete (n : Note) (nb : Notebook) : Notebook × List ApiCall :=
  ({ nb with notes := dictDelete nb.notes n.id }, [ApiCall.deleteNote n.to_json])

/-- `Note.move_to(self, new_notebook)`: `api.move_note(self.to_json(),
new_notebook.id)`, then `del self.notebook.notes[self.id]`, then
`new_notebook.add_note(self)`.  `a` is the old owning notebook (the object
`self.notebook` references; in the source `del` would raise `KeyError` were
the note not in it, which the claims never exercise).  The note object itself
is not written to at all — in particular `self.notebook` keeps designating
the old notebook.  Returns the two notebooks after the call and the issued
remote calls. -/
def Note.move_to (n : Note) (a b : Notebook) :
    Notebook × Notebook × List ApiCall :=
  ({ a with notes := dictDelete a.notes n.id },
   b.add_note n,
   [ApiCall.moveNote n.to_json b.id])

/-- `Paperwork.add_notebook(self, notebook)`: insert under its id unless the
id is 0; no remote call is issued either way. -/
def Paperwork.add_notebook (ws : Paperwork) (nb : Notebook) :
    Paperwork × List ApiCall :=
  if nb.id ≠ 0 then
    ({ ws with notebooks := dictInsert ws.notebooks nb.id nb }, [])
  else
    (ws, [])

/-! ## Fuzzy resolver -/

/-- `Paperwork.fuzzy_find(self, title, choices)`: the loop body, written as
the recursion the `for` loop performs on the accumulator
`top_choice = (0, None)`.  `ratio` is the opaque similarity primitive
(`fuzz.ratio`, a score in `0..100`); `key` extracts a candidate's `title`
(the choices are duck-typed models). -/
def fuzzyLoop {α : Type} (score : α → Nat) :
    List α → Nat × Option α → Nat × Option α
  | [], acc => acc
  | c :: rest, acc =>
    if score c > acc.1 then fuzzyLoop score rest (score c, some c)
    else fuzzyLoop score rest acc

/-- `Paperwork.fuzzy_find`: returns `top_choice[1]` after the loop. -/
def fuzzy_find {α : Type} (ratio : String → String → Nat) (title : String)
    (choices : List α) (key : α → String) : Option α :=
  (fuzzyLoop (fun c => ratio (key c) title) choices (0, none)).2

/-! ## Download (the part C9 needs) -/

/-- `Notebook.download(self, tags)`: fetch the notebook's notes; for each wire
note build the local `Note` (`Note.from_json`, tag set starts empty), add it
to the notebook, then `note.add_tags([tags[tag['id']] for tag in
note_json['tags']])`.  A `None` notes payload makes the `for` raise
(`Except.error`), and a tag id absent from `tags` raises `KeyError`
(`Except.error`).  Only the note's own tag set is written; the `Tag` values
in `tags` are never mutated. -/
def Notebook.download (r : Remote) (tags : Dict Tag) (nb : Notebook) :
    Except Unit Notebook :=
  match r.listNotebookNotes nb.id with
  | none => Except.error ()
  | some njs =>
    njs.foldlM (fun cur nj =>
      if nj.tags.all (fun tid => (dictGet tags tid).isSome) then
        let note : Note :=
          { id := nj.id, title := nj.title, content := nj.content,
            updated_at := nj.updated_at, tags := [], notebook := cur.id }
        Except.ok (cur.add_note (note.add_tags nj.tags))
      else Except.error ()) nb

/-- `Paperwork.download(self)`: tags first, then notebooks, each notebook then
downloading its notes.  A `None` tag or notebook listing makes the `for`
raise; a failure inside one notebook's download propagates (the source has no
handler around it). -/
def Paperwork.download (r : Remote) (ws : Paperwork) : Except Unit Paperwork :=
  match r.listTags with
  | none => Except.error ()
  | some tjs =>
    let newTags := tjs.foldl (fun m tj => dictInsert m tj.id (Tag.from_json tj)) ws.tags
    let ws1 : Paperwork := { ws with tags := newTags }
    match r.listNotebooks with
    | none => Except.error ()
    | some nbjs =>
      nbjs.foldlM (fun cur nbj => do
        let nb := Notebook.from_json nbj
        let nb ← nb.download r cur.tags
        Except.ok { cur with notebooks := dictInsert cur.notebooks nb.id nb })
        ws1

/-! ## Workspace-level update -/

/-- The inner loop of `Paperwork.update`: `for note in nb.get_notes():
note.update()`.  Each note is updated with the default `force=False` and the
result written back into the notebook's dict under its id; an exception from
`Note.update` propagates, aborting the remaining notes. -/
def updateNotesList (r : Remote) : List Note → Notebook →
    List ApiCall × Except Unit Notebook
  | [], nb => ([], Except.ok nb)
  | n :: rest, nb =>
    let step := Note.update r false n
    match step.2 with
    | Except.error e => (step.1, Except.error e)
    | Except.ok n' =>
      let next := updateNotesList r rest { nb with notes := dictInsert nb.notes n'.id n' }
      (step.1 ++ next.1, next.2)

/-- One notebook's turn inside `Paperwork.update`: `nb.update()` (which, the
`force` parameter defaulting to `True`, force-pushes), then every owned note
in title order. -/
def Paperwork.updateNotebook (r : Remote) (nb : Notebook) :
    List ApiCall × Except Unit Notebook :=
  let step := Notebook.update r true nb
  let next := updateNotesList r step.1.get_notes step.1
  (step.2 ++ next.1, next.2)

/-- The outer loop of `Paperwork.update` over `self.notebooks.values()`. -/
def updateNotebooksList (r : Remote) : List (Nat × Notebook) → Dict Notebook →
    List ApiCall × Except Unit (Dict Notebook)
  | [], acc => ([], Except.ok acc)
  | p :: rest, acc =>
    let step := Paperwork.updateNotebook r p.2
    match step.2 with
    | Except.error e => (step.1, Except.error e)
    | Except.ok nb' =>
      let next := updateNotebooksList r rest (dictInsert acc p.1 nb')
      (step.1 ++ next.1, next.2)

/-- `Paperwork.update(self)`: reconcile every notebook (forced push, see
`Paperwork.updateNotebook`), then each of its notes in title order; an
uncaught exception from a note's failed push write aborts the traversal. -/
def Paperwork.update (r : Remote) (ws : Paperwork) :
    List ApiCall × Except Unit Paperwork :=
  let run := updateNotebooksList r ws.notebooks ws.notebooks
  (run.1, run.2.map (fun nbs => { ws with notebooks := nbs }))

/-! ## Comparison and dictionary lemmas -/

theorem pyStrLtAux_self (l : List Char) : pyStrLtAux l l = false := by
  induction l with
  | nil => rfl
  | cons a as ih => simp [pyStrLtAux, Nat.lt_irrefl, ih]

theorem strLt_self (s : String) : strLt s s = false :=
  pyStrLtAux_self s.data

theorem strLe_self (s : String) : strLe s s = true := by
  simp [strLe, strLt_self]

theorem dictGet_dictInsert {β : Type} (d : Dict β) (k : Nat) (v : β) :
    dictGet (dictInsert d k v) k = some v := by
  induction d with
  | nil => simp [dictInsert, dictGet]
  | cons p rest ih =>
    by_cases h : p.1 = k
    · simp [dictInsert, dictGet, h]
    · simp [dictInsert, dictGet, h, ih]

theorem dictGet_dictInsert_ne {β : Type} (d : Dict β) (k k' : Nat) (v : β)
    (h : k' ≠ k) : dictGet (dictInsert d k v) k' = dictGet d k' := by
  have h' : ¬ (k = k') := fun hh => h hh.symm
  induction d with
  | nil => simp [dictInsert, dictGet, h']
  | cons p rest ih =>
    by_cases hp : p.1 = k
    · simp [dictInsert, dictGet, hp, h']
    · simp [dictInsert, dictGet, hp, ih]

theorem dictGet_dictDelete {β : Type} (d : Dict β) (k : Nat) :
    dictGet (dictDelete d k) k = none := by
  induction d with
  | nil => simp [dictDelete, dictGet]
  | cons p rest ih =>
    by_cases h : p.1 = k
    · simpa [dictDelete, dictGet, h] using ih
    · simpa [dictDelete, dictGet, h] using ih

theorem dictGet_dictDelete_ne {β : Type} (d : Dict β) (k k' : Nat)
    (h : k' ≠ k) : dictGet (dictDelete d k) k' = dictGet d k' := by
  have h' : ¬ (k = k') := fun hh => h hh.symm
  induction d with
  | nil => simp [dictDelete, dictGet]
  | cons p rest ih =>
    by_cases hp : p.1 = k
    · simp [dictDelete, dictGet, hp, h', ih]
    · by_cases hp' : p.1 = k'
      · simp [dictDelete, dictGet, hp, hp', h]
      · simp [dictDelete, dictGet, hp, hp', ih]

/-! ## C1 -/

/-- C1: tie-break asymmetry of the conflict-resolution policy.  With equal
local and remote `updated_at`, `Note.update(force=False)` takes the push
branch (the remote write for the local note is issued), while
`Notebook.update(force=False)` takes the pull branch: the local notebook's
title and `updated_at` are overwritten from the remote snapshot and no
remote write is issued. -/
theorem update_tie_break_asymmetry
    (r : Remote) (n : Note) (remN : RemoteNote)
    (nb : Notebook) (remB : RemoteNotebook)
    (hn : r.note n.notebook n.id = some remN)
    (hneq : remN.updated_at = n.updated_at)
    (hb : r.notebook nb.id = some remB)
    (hbeq : remB.updated_at = nb.updated_at) :
    (Note.update r false n).1
      = [ApiCall.getNote n.notebook n.id, ApiCall.updateNote n.to_json]
    ∧ Notebook.update r false nb
      = ({ nb with title := remB.title, updated_at := remB.updated_at },
         [ApiCall.getNotebook nb.id]) := by
  have hle : strLe remN.updated_at n.updated_at = true := by
    rw [hneq]; exact strLe_self _
  have hlt : strLt remB.updated_at nb.updated_at = false := by
    rw [hbeq]; exact strLt_self _
  constructor
  · cases hput : r.putNote n.to_json with
    | none => simp [Note.update, hn, hle, hput]
    | some ua => simp [Note.update, hn, hle, hput]
  · simp [Notebook.update, hb, hlt]

/-- Concrete instance for `update_tie_break_asymmetry`. -/
def rC1 : Remote :=
  { notebook := fun _ => some { title := "rt", updated_at := "100" },
    note := fun _ _ => some { title := "t", content := "c", updated_at := "100" },
    putNotebook := fun _ => none,
    putNote := fun _ => some "101",
    listTags := none, listNotebooks := none, listNotebookNotes := fun _ => none }

/-- Concrete local note with `updated_at = "100"`. -/
def nC1 : Note :=
  { id := 5, title := "a", content := "c", updated_at := "100", tags := [], notebook := 1 }

/-- Concrete local notebook with `updated_at = "100"`. -/
def nbC1 : Notebook :=
  { id := 1, title := "b", type := 0, updated_at := "100", notes := [] }

/-- Witness for C1 at `updated_at = "100"` on both sides. -/
theorem update_tie_break_asymmetry_witness :
    (Note.update rC1 false nC1).1
      = [ApiCall.getNote 1 5, ApiCall.updateNote nC1.to_json]
    ∧ Notebook.update rC1 false nbC1
      = ({ nbC1 with title := "rt", updated_at := "100" },
         [ApiCall.getNotebook 1]) :=
  update_tie_break_asymmetry rC1 nC1
    { title := "t", content := "c", updated_at := "100" } nbC1
    { title := "rt", updated_at := "100" } rfl rfl rfl rfl

/-! ## C2 -/

/-- Remote for the C2 counterexample: the notebook write succeeds and the
server answers with `updated_at = "999"`. -/
def rC2 : Remote :=
  { notebook := fun _ => some { title := "rt", updated_at := "050" },
    note := fun _ _ => none,
    putNotebook := fun _ => some "999",
    putNote := fun _ => none,
    listTags := none, listNotebooks := none, listNotebookNotes := fun _ => none }

/-- Local notebook for the C2 counterexample. -/
def nbC2 : Notebook :=
  { id := 1, title := "b", type := 0, updated_at := "100", notes := [] }

/-- C2 counterexample: `Notebook.update` takes the push branch (remote
`"050"` is older than local `"100"`), the remote write succeeds and the
server returns `updated_at = "999"`, yet the local notebook's `updated_at`
stays `"100"` — `Notebook.update` discards the response of
`api.update_notebook`, so the entity's local `updated_at` is not set to the
server's returned value. -/
theorem notebook_push_discards_server_timestamp :
    rC2.putNotebook nbC2.to_json = some "999"
    ∧ (Notebook.update rC2 false nbC2).2
        = [ApiCall.getNotebook 1, ApiCall.updateNotebook nbC2.to_json]
    ∧ (Notebook.update rC2 false nbC2).1.updated_at = "100"
    ∧ ("100" : String) ≠ "999" := by
  exact ⟨rfl, rfl, rfl, by decide⟩

/-- C2 as amended: a successful push updates local `updated_at` from the
server's returned value for the **Note** path only — `Note.update`'s push
assigns the `updated_at` of the write's response; `Notebook.update`'s push
discards the response and leaves the whole local notebook unchanged. -/
theorem push_updated_at_note_only (r : Remote) :
    (∀ (force : Bool) (n : Note) (rem : RemoteNote) (ua : String),
      r.note n.notebook n.id = some rem →
      (force || strLe rem.updated_at n.updated_at) = true →
      r.putNote n.to_json = some ua →
      (Note.update r force n).2 = Except.ok { n with updated_at := ua })
    ∧ (∀ (force : Bool) (nb : Notebook) (rem : RemoteNotebook),
      r.notebook nb.id = some rem →
      (force || strLt rem.updated_at nb.updated_at) = true →
      (Notebook.update r force nb).1 = nb) := by
  constructor
  · intro force n rem ua hn hcond hput
    simp [Note.update, hn, hcond, hput]
  · intro force nb rem hb hcond
    simp [Notebook.update, hb, hcond]

/-- Witness for `push_updated_at_note_only`: the note push at equal
timestamps stores the server's `"101"`; the notebook push leaves the local
notebook unchanged. -/
theorem push_updated_at_note_only_witness :
    (Note.update rC1 false nC1).2 = Except.ok { nC1 with updated_at := "101" }
    ∧ (Notebook.update rC2 false nbC2).1 = nbC2 :=
  ⟨(push_updated_at_note_only rC1).1 false nC1
      { title := "t", content := "c", updated_at := "100" } "101" rfl rfl rfl,
   (push_updated_at_note_only rC2).2 false nbC2
      { title := "rt", updated_at := "050" } rfl rfl⟩

/-! ## C4 -/

/-- C4: when the remote counterpart is absent (the fetch returns `None`),
both `Notebook.update` and `Note.update` only report the error: no exception,
the entity's local state is returned unchanged (every field — title, content,
`updated_at`, tag set, owned note dict — is exactly the input's), and the
only remote call issued is the fetch itself, so no owning collection can be
affected. -/
theorem update_remote_absent_no_mutation
    (r : Remote) (force : Bool) (nb : Notebook) (n : Note)
    (hb : r.notebook nb.id = none)
    (hn : r.note n.notebook n.id = none) :
    Notebook.update r force nb = (nb, [ApiCall.getNotebook nb.id])
    ∧ Note.update r force n
        = ([ApiCall.getNote n.notebook n.id], Except.ok n) := by
  constructor
  · simp [Notebook.update, hb]
  · simp [Note.update, hn]

/-- Remote that answers every fetch with an absent result. -/
def rC4 : Remote :=
  { notebook := fun _ => none, note := fun _ _ => none,
    putNotebook := fun _ => none, putNote := fun _ => none,
    listTags := none, listNotebooks := none, listNotebookNotes := fun _ => none }

/-- Witness for C4 at a concrete notebook and note. -/
theorem update_remote_absent_no_mutation_witness :
    Notebook.update rC4 false nbC1 = (nbC1, [ApiCall.getNotebook 1])
    ∧ Note.update rC4 false nC1
        = ([ApiCall.getNote 1 5], Except.ok nC1) :=
  update_remote_absent_no_mutation rC4 false nbC1 nC1 rfl rfl

/-! ## C7 -/

/-- Notebook A for the move scenario: id 1, holding notes 7 and 3. -/
def noteC7 : Note :=
  { id := 7, title := "moved", content := "c7", updated_at := "1", tags := [], notebook := 1 }

/-- A sibling note that must stay in A. -/
def mC7 : Note :=
  { id := 3, title := "stay", content := "c3", updated_at := "1", tags := [], notebook := 1 }

/-- A note already owned by B. -/
def pC7 : Note :=
  { id := 9, title := "other", content := "c9", updated_at := "1", tags := [], notebook := 2 }

/-- Notebook A (id 1) before the move. -/
def nbAC7 : Notebook :=
  { id := 1, title := "A", type := 0, updated_at := "1", notes := [(7, noteC7), (3, mC7)] }

/-- Notebook B (id 2) before the move. -/
def nbBC7 : Notebook :=
  { id := 2, title := "B", type := 0, updated_at := "1", notes := [(9, pC7)] }

/-- C7 counterexample: after `noteC7.move_to(B)` the note stored under key 7
of B still carries `notebook = 1` — `move_to` never assigns
`self.notebook = new_notebook`, so the owner reference does **not** designate
B (id 2) as the claim states. -/
theorem move_to_owner_ref_stale :
    (dictGet (noteC7.move_to nbAC7 nbBC7).2.1.notes 7).map Note.notebook = some 1
    ∧ (1 : Nat) ≠ 2 := by
  exact ⟨rfl, by decide⟩

/-- C7 as amended: moving note `n` (id 7) from Notebook A to Notebook B
removes key 7 from `A.notes`, stores the very same note value under key 7 of
`B.notes`, issues exactly one remote move call, and leaves every other entry
of `A.notes` and `B.notes` unchanged; the note itself is not written to, so
its owner reference still designates A (not B). -/
theorem move_to_spec (n : Note) (a b : Notebook) (hown : n.notebook = a.id) :
    dictGet (n.move_to a b).1.notes n.id = none
    ∧ dictGet (n.move_to a b).2.1.notes n.id = some n
    ∧ (dictGet (n.move_to a b).2.1.notes n.id).map Note.notebook = some a.id
    ∧ (n.move_to a b).2.2 = [ApiCall.moveNote n.to_json b.id]
    ∧ (∀ k, k ≠ n.id →
        dictGet (n.move_to a b).1.notes k = dictGet a.notes k
        ∧ dictGet (n.move_to a b).2.1.notes k = dictGet b.notes k) := by
  refine ⟨?_, ?_, ?_, rfl, ?_⟩
  · exact dictGet_dictDelete a.notes n.id
  · exact dictGet_dictInsert b.notes n.id n
  · rw [show dictGet (n.move_to a b).2.1.notes n.id = some n from
        dictGet_dictInsert b.notes n.id n]
    simp [hown]
  · intro k hk
    exact ⟨dictGet_dictDelete_ne a.notes n.id k hk,
           dictGet_dictInsert_ne b.notes n.id k n hk⟩

/-- Witness for `move_to_spec` at the concrete id-7 scenario (the frame
conjunct instantiated at the sibling keys 3 and 9). -/
theorem move_to_spec_witness :
    dictGet (noteC7.move_to nbAC7 nbBC7).1.notes 7 = none
    ∧ dictGet (noteC7.move_to nbAC7 nbBC7).2.1.notes 7 = some noteC7
    ∧ (dictGet (noteC7.move_to nbAC7 nbBC7).2.1.notes 7).map Note.notebook = some 1
    ∧ (noteC7.move_to nbAC7 nbBC7).2.2 = [ApiCall.moveNote noteC7.to_json 2]
    ∧ dictGet (noteC7.move_to nbAC7 nbBC7).1.notes 3 = dictGet nbAC7.notes 3
    ∧ dictGet (noteC7.move_to nbAC7 nbBC7).2.1.notes 9 = dictGet nbBC7.notes 9 :=
  have h := move_to_spec noteC7 nbAC7 nbBC7 rfl
  ⟨h.1, h.2.1, h.2.2.1, h.2.2.2.1,
   (h.2.2.2.2 3 (by decide)).1, (h.2.2.2.2 9 (by decide)).2⟩

/-! ## C8 -/

/-- Workspace for the C8 counterexample, holding notebook 1. -/
def wsC8 : Paperwork :=
  { notebooks := [(1, nbAC7)], tags := [] }

/-- C8 counterexample: calling `delete()` on notebook 1 of the workspace
issues the remote delete but leaves the workspace's notebook mapping exactly
as it was — the entry for key 1 remains (`Notebook.delete`'s whole body is
the remote call; the class has no reference to the workspace), so deletion
does **not** remove the entity from its owner's collection. -/
theorem notebook_delete_leaves_workspace_entry :
    (wsC8.runNotebookDelete 1).1 = wsC8
    ∧ dictGet (wsC8.runNotebookDelete 1).1.notebooks 1 = some nbAC7
    ∧ (wsC8.runNotebookDelete 1).2 = [ApiCall.deleteNotebook 1] := by
  exact ⟨rfl, rfl, rfl⟩

/-- C8 as amended: `Note.delete` removes the note from its owning Notebook's
mapping and issues exactly one remote delete call, leaving all other entries
unchanged; `Notebook.delete` issues exactly one remote delete call but
performs no local removal — the notebook's entry in the Workspace's mapping
survives. -/
theorem delete_spec (n : Note) (nb : Notebook) (ws : Paperwork) (id : Nat) :
    dictGet (n.delete nb).1.notes n.id = none
    ∧ (n.delete nb).2 = [ApiCall.deleteNote n.to_json]
    ∧ (∀ k, k ≠ n.id → dictGet (n.delete nb).1.notes k = dictGet nb.notes k)
    ∧ nb.delete = [ApiCall.deleteNotebook nb.id]
    ∧ (ws.runNotebookDelete id).1 = ws := by
  refine ⟨dictGet_dictDelete nb.notes n.id, rfl, ?_, rfl, ?_⟩
  · intro k hk
    exact dictGet_dictDelete_ne nb.notes n.id k hk
  · unfold Paperwork.runNotebookDelete
    cases dictGet ws.notebooks id <;> rfl

/-- Witness for `delete_spec` at concrete entities (frame conjunct
instantiated at the sibling key 3). -/
theorem delete_spec_witness :
    dictGet (noteC7.delete nbAC7).1.notes 7 = none
    ∧ (noteC7.delete nbAC7).2 = [ApiCall.deleteNote noteC7.to_json]
    ∧ dictGet (noteC7.delete nbAC7).1.notes 3 = dictGet nbAC7.notes 3
    ∧ nbAC7.delete = [ApiCall.deleteNotebook 1]
    ∧ (wsC8.runNotebookDelete 1).1 = wsC8 :=
  have h := delete_spec noteC7 nbAC7 wsC8 1
  ⟨h.1, h.2.1, h.2.2.1 3 (by decide), h.2.2.2.1, h.2.2.2.2⟩

/-! ## C10 -/

/-- C10: `Paperwork.add_notebook` is a no-op (mapping untouched, no remote
call) for a notebook whose id is 0, and for a non-zero id it inserts the
notebook under its id, changes no other notebook entry, leaves the tag
mapping alone and issues no remote call. -/
theorem add_notebook_spec (ws : Paperwork) (nb : Notebook) :
    (nb.id = 0 → ws.add_notebook nb = (ws, []))
    ∧ (nb.id ≠ 0 →
        (ws.add_notebook nb).1.notebooks = dictInsert ws.notebooks nb.id nb
        ∧ dictGet (ws.add_notebook nb).1.notebooks nb.id = some nb
        ∧ (∀ k, k ≠ nb.id →
            dictGet (ws.add_notebook nb).1.notebooks k = dictGet ws.notebooks k)
        ∧ (ws.add_notebook nb).1.tags = ws.tags
        ∧ (ws.add_notebook nb).2 = []) := by
  constructor
  · intro h0
    simp [Paperwork.add_notebook, h0]
  · intro hne
    refine ⟨?_, ?_, ?_, ?_, ?_⟩ <;>
      simp [Paperwork.add_notebook, hne, dictGet_dictInsert]
    intro k hk
    exact dictGet_dictInsert_ne ws.notebooks nb.id k nb hk

/-- A not-yet-created notebook (id 0). -/
def nbZero : Notebook :=
  { id := 0, title := "fresh", type := 0, updated_at := "", notes := [] }

/-- Witness for `add_notebook_spec`: the id-0 notebook leaves the workspace
untouched; notebook 1 is inserted under key 1. -/
theorem add_notebook_spec_witness :
    ({ notebooks := [], tags := [] } : Paperwork).add_notebook nbZero
        = ({ notebooks := [], tags := [] }, [])
    ∧ dictGet (({ notebooks := [], tags := [] } : Paperwork).add_notebook nbAC7).1.notebooks 1
        = some nbAC7 :=
  ⟨(add_notebook_spec { notebooks := [], tags := [] } nbZero).1 rfl,
   ((add_notebook_spec { notebooks := [], tags := [] } nbAC7).2 (by decide)).2.1⟩

/-! ## C6 -/

/-- Characterization of the `fuzzy_find` loop: starting from accumulator
`(b, cand)`, either no candidate beats `b` and the accumulator survives
unchanged, or the final accumulator holds the first candidate that beats
every earlier candidate and `b`, and no later candidate beats it. -/
theorem fuzzyLoop_char {α : Type} (score : α → Nat) (l : List α) :
    ∀ (b : Nat) (cand : Option α),
      (fuzzyLoop score l (b, cand) = (b, cand) ∧ ∀ c ∈ l, score c ≤ b)
      ∨ (∃ l1 x l2, l = l1 ++ x :: l2
          ∧ fuzzyLoop score l (b, cand) = (score x, some x)
          ∧ b < score x
          ∧ (∀ y ∈ l1, score y < score x)
          ∧ (∀ y ∈ l2, score y ≤ score x)) := by
  induction l with
  | nil =>
    intro b cand
    exact Or.inl ⟨rfl, by simp⟩
  | cons c rest ih =>
    intro b cand
    by_cases hc : score c > b
    · have hstep : fuzzyLoop score (c :: rest) (b, cand)
          = fuzzyLoop score rest (score c, some c) := by
        simp [fuzzyLoop, hc]
      rcases ih (score c) (some c) with ⟨heq, hall⟩ | ⟨l1, x, l2, hsplit, heq, hlt, h1, h2⟩
      · exact Or.inr ⟨[], c, rest, rfl, by rw [hstep, heq], hc, by simp, hall⟩
      · refine Or.inr ⟨c :: l1, x, l2, by rw [hsplit, List.cons_append], by rw [hstep, heq],
          lt_trans hc hlt, ?_, h2⟩
        intro y hy
        rcases List.mem_cons.mp hy with hy | hy
        · rw [hy]; exact hlt
        · exact h1 y hy
    · have hc' : score c ≤ b := Nat.le_of_not_lt hc
      have hstep : fuzzyLoop score (c :: rest) (b, cand)
          = fuzzyLoop score rest (b, cand) := by
        simp [fuzzyLoop, hc]
      rcases ih b cand with ⟨heq, hall⟩ | ⟨l1, x, l2, hsplit, heq, hlt, h1, h2⟩
      · refine Or.inl ⟨by rw [hstep, heq], ?_⟩
        intro y hy
        rcases List.mem_cons.mp hy with hy | hy
        · rw [hy]; exact hc'
        · exact hall y hy
      · refine Or.inr ⟨c :: l1, x, l2, by rw [hsplit, List.cons_append], by rw [hstep, heq], hlt, ?_, h2⟩
        intro y hy
        rcases List.mem_cons.mp hy with hy | hy
        · rw [hy]; exact Nat.lt_of_le_of_lt hc' hlt
        · exact h1 y hy

/-- C6: `fuzzy_find(title, choices)` returns `None` when the choice list is
empty (covered by the all-zero case over `[]`) or every candidate scores the
floor 0; whenever it returns a candidate, that candidate is in the list,
scores at least as high as every candidate, and is the first-seen one among
equal-scoring candidates (every earlier candidate scores strictly lower);
and whenever some candidate scores above the floor, a candidate is
returned.  The function never raises: it is total by construction. -/
theorem fuzzy_find_spec {α : Type} (ratio : String → String → Nat)
    (title : String) (choices : List α) (key : α → String) :
    ((∀ c ∈ choices, ratio (key c) title = 0) →
      fuzzy_find ratio title choices key = none)
    ∧ (∀ x, fuzzy_find ratio title choices key = some x →
        x ∈ choices
        ∧ (∀ y ∈ choices, ratio (key y) title ≤ ratio (key x) title)
        ∧ ∃ l1 l2, choices = l1 ++ x :: l2
            ∧ ∀ y ∈ l1, ratio (key y) title < ratio (key x) title)
    ∧ ((∃ c ∈ choices, 0 < ratio (key c) title) →
        ∃ x, fuzzy_find ratio title choices key = some x) := by
  have H := fuzzyLoop_char (fun c => ratio (key c) title) choices 0 none
  refine ⟨?_, ?_, ?_⟩
  · intro hall0
    rcases H with ⟨heq, _⟩ | ⟨l1, x, l2, hsplit, heq, hpos, h1, h2⟩
    · show (fuzzyLoop (fun c => ratio (key c) title) choices (0, none)).2 = none
      rw [heq]
    · exfalso
      have hx0 : ratio (key x) title = 0 := by
        apply hall0
        rw [hsplit]
        exact List.mem_append.mpr (Or.inr (List.mem_cons_self x l2))
      rw [hx0] at hpos
      exact Nat.lt_irrefl 0 hpos
  · intro x hx
    rcases H with ⟨heq, _⟩ | ⟨l1, x', l2, hsplit, heq, hpos, h1, h2⟩
    · exfalso
      have : fuzzy_find ratio title choices key = none := by
        show (fuzzyLoop (fun c => ratio (key c) title) choices (0, none)).2 = none
        rw [heq]
      rw [this] at hx
      exact Option.noConfusion hx
    · have hxx : x' = x := by
        have : fuzzy_find ratio title choices key = some x' := by
          show (fuzzyLoop (fun c => ratio (key c) title) choices (0, none)).2 = some x'
          rw [heq]
        rw [this] at hx
        exact Option.some.inj hx
      rw [hxx] at hsplit h1 h2
      refine ⟨?_, ?_, l1, l2, hsplit, h1⟩
      · rw [hsplit]
        exact List.mem_append.mpr (Or.inr (List.mem_cons_self x l2))
      · intro y hy
        rw [hsplit] at hy
        rcases List.mem_append.mp hy with hy | hy
        · exact Nat.le_of_lt (h1 y hy)
        · rcases List.mem_cons.mp hy with hy | hy
          · rw [hy]
          · exact h2 y hy
  · intro hex
    rcases H with ⟨heq, hall⟩ | ⟨l1, x, l2, hsplit, heq, hpos, h1, h2⟩
    · exfalso
      rcases hex with ⟨c, hc, hpos⟩
      have := hall c hc
      exact Nat.lt_irrefl 0 (Nat.lt_of_lt_of_le hpos this)
    · refine ⟨x, ?_⟩
      show (fuzzyLoop (fun c => ratio (key c) title) choices (0, none)).2 = some x
      rw [heq]

/-- The similarity scores pinned for the witness, mirroring the spec's §8
example (query `"grocery"`). -/
def ratioC6 : String → String → Nat := fun a _ =>
  if a = "Grocery List" then 80 else if a = "Groceries" then 71 else 0

/-- The §8 example choice list. -/
def choicesC6 : List String := ["Groceries", "Grocery List", "Work"]

/-- Witness for `fuzzy_find_spec`: with no choices the resolver returns no
result; on the §8 example the returned candidate `"Grocery List"` is a member
and outscores `"Groceries"`. -/
theorem fuzzy_find_spec_witness :
    fuzzy_find ratioC6 "grocery" ([] : List String) id = none
    ∧ "Grocery List" ∈ choicesC6
    ∧ ratioC6 (id "Groceries") "grocery" ≤ ratioC6 (id "Grocery List") "grocery" :=
  have h2 := (fuzzy_find_spec ratioC6 "grocery" choicesC6 id).2.1 "Grocery List" rfl
  ⟨(fuzzy_find_spec ratioC6 "grocery" [] id).1 (by simp),
   h2.1, h2.2.1 "Groceries" (by simp [choicesC6])⟩

/-! ## C3 -/

/-- Notebook whose remote counterpart is strictly newer. -/
def nbC3 : Notebook :=
  { id := 1, title := "local", type := 0, updated_at := "100", notes := [] }

/-- Remote for C3: notebook 1 carries the strictly newer timestamp `"200"`. -/
def rC3 : Remote :=
  { notebook := fun _ => some { title := "remote", updated_at := "200" },
    note := fun _ _ => none,
    putNotebook := fun _ => some "201", putNote := fun _ => none,
    listTags := none, listNotebooks := none, listNotebookNotes := fun _ => none }

/-- Workspace holding only notebook 1. -/
def wsC3 : Paperwork := { notebooks := [(1, nbC3)], tags := [] }

/-- C3 (code bug): during `Paperwork.update()` the notebook with local
timestamp `"100"` whose remote counterpart has the strictly newer `"200"` is
nevertheless pushed — `Paperwork.update` calls `nb.update()` whose `force`
parameter defaults to `True`, so the timestamps are never compared and the
remote write is issued (and the local notebook is not pulled), contrary to
the §4.3 policy and to `Notebook.update`'s own docstring. -/
theorem workspace_update_force_pushes_stale_notebook :
    strLt nbC3.updated_at "200" = true
    ∧ rC3.notebook 1 = some { title := "remote", updated_at := "200" }
    ∧ (Paperwork.update rC3 wsC3).1
        = [ApiCall.getNotebook 1, ApiCall.updateNotebook nbC3.to_json]
    ∧ (Paperwork.update rC3 wsC3).2 = Except.ok wsC3 := by
  exact ⟨rfl, rfl, rfl, rfl⟩

/-! ## C5 -/

/-- Note "Alpha" (id 7), whose push write will fail in the counterexample. -/
def noteAl : Note :=
  { id := 7, title := "Alpha", content := "a", updated_at := "100", tags := [], notebook := 1 }

/-- Sibling note "Beta" (id 9). -/
def noteBe : Note :=
  { id := 9, title := "Beta", content := "b", updated_at := "100", tags := [], notebook := 1 }

/-- Notebook holding both notes. -/
def nbC5 : Notebook :=
  { id := 1, title := "NB", type := 0, updated_at := "100", notes := [(7, noteAl), (9, noteBe)] }

/-- Workspace for the C5 counterexample. -/
def wsC5 : Paperwork := { notebooks := [(1, nbC5)], tags := [] }

/-- Remote for the C5 counterexample: the notebook fetch fails (recovered),
each note fetch succeeds with an equal timestamp (so the note pushes), and
the push write fails (`None`). -/
def rC5 : Remote :=
  { notebook := fun _ => none,
    note := fun _ _ => some { title := "t", content := "c", updated_at := "100" },
    putNotebook := fun _ => none,
    putNote := fun _ => none,
    listTags := none, listNotebooks := none, listNotebookNotes := fun _ => none }

/-- C5 counterexample: when note 7 ("Alpha") takes the push branch and the
remote write returns an absent result, `None['updated_at']` raises, the
workspace update aborts with the exception, and the sibling note 9 ("Beta")
is never reconciled — its fetch is absent from the issued call trace.  So a
transport failure of the remote write of a push **does** abort the
traversal. -/
theorem note_push_failure_aborts_workspace_update :
    (Paperwork.update rC5 wsC5).2 = Except.error ()
    ∧ ApiCall.getNote 1 7 ∈ (Paperwork.update rC5 wsC5).1
    ∧ ApiCall.getNote 1 9 ∉ (Paperwork.update rC5 wsC5).1 := by
  exact ⟨rfl, by decide, by decide⟩

/-- Any note update ends in `ok` as soon as the remote note write cannot
fail; fetch failures and both branches are fine by themselves. -/
theorem note_update_ok (r : Remote) (force : Bool) (n : Note)
    (h : ∀ j, (r.putNote j).isSome = true) :
    ∃ n', (Note.update r force n).2 = Except.ok n' := by
  cases hrem : r.note n.notebook n.id with
  | none => exact ⟨n, by simp [Note.update, hrem]⟩
  | some rem =>
    cases hput : r.putNote n.to_json with
    | none =>
      exfalso
      have hj := h n.to_json
      rw [hput] at hj
      exact Bool.noConfusion hj
    | some ua =>
      by_cases hcond : (force || strLe rem.updated_at n.updated_at) = true
      · exact ⟨{ n with updated_at := ua },
          by simp [Note.update, hrem, hcond, hput]⟩
      · have hcond' : (force || strLe rem.updated_at n.updated_at) = false :=
          Bool.eq_false_iff.mpr hcond
        exact ⟨{ n with title := rem.title, content := rem.content,
                        updated_at := rem.updated_at },
          by simp [Note.update, hrem, hcond']⟩

/-- The note loop of `Paperwork.update` ends in `ok` when no note write can
fail. -/
theorem updateNotesList_ok (r : Remote)
    (h : ∀ j, (r.putNote j).isSome = true) :
    ∀ (todo : List Note) (nb : Notebook),
      ∃ nb', (updateNotesList r todo nb).2 = Except.ok nb' := by
  intro todo
  induction todo with
  | nil => intro nb; exact ⟨nb, rfl⟩
  | cons n rest ih =>
    intro nb
    obtain ⟨n', hn'⟩ := note_update_ok r false n h
    obtain ⟨nb', hnb'⟩ := ih { nb with notes := dictInsert nb.notes n'.id n' }
    exact ⟨nb', by simp [updateNotesList, hn', hnb']⟩

/-- One notebook's turn ends in `ok` when no note write can fail. -/
theorem updateNotebook_turn_ok (r : Remote) (nb : Notebook)
    (h : ∀ j, (r.putNote j).isSome = true) :
    ∃ nb', (Paperwork.updateNotebook r nb).2 = Except.ok nb' := by
  obtain ⟨nb', hnb'⟩ := updateNotesList_ok r h
    (Notebook.update r true nb).1.get_notes (Notebook.update r true nb).1
  exact ⟨nb', by simp [Paperwork.updateNotebook, hnb']⟩

/-- The notebook loop ends in `ok` when no note write can fail. -/
theorem updateNotebooksList_ok (r : Remote)
    (h : ∀ j, (r.putNote j).isSome = true) :
    ∀ (l : List (Nat × Notebook)) (acc : Dict Notebook),
      ∃ d, (updateNotebooksList r l acc).2 = Except.ok d := by
  intro l
  induction l with
  | nil => intro acc; exact ⟨acc, rfl⟩
  | cons p rest ih =>
    intro acc
    obtain ⟨nb', hnb'⟩ := updateNotebook_turn_ok r p.2 h
    obtain ⟨d, hd⟩ := ih (dictInsert acc p.1 nb')
    exact ⟨d, by simp [updateNotebooksList, hnb', hd]⟩

/-- C5 as amended: transport failures of the **fetches** (`get_notebook`,
`get_note` returning an absent result) are recovered at each entity's
boundary and never abort the traversal — the hypothesis constrains only the
note write — but a transport failure of the remote write of a note's push
raises and aborts the workspace update (see the counterexample).  Whenever
every note push write succeeds, `Paperwork.update` completes without
raising, whatever the fetches and the notebook writes do. -/
theorem workspace_update_ok_when_note_writes_succeed
    (r : Remote) (ws : Paperwork)
    (h : ∀ j, (r.putNote j).isSome = true) :
    (Paperwork.update r ws).2 ≠ Except.error () := by
  obtain ⟨d, hd⟩ := updateNotebooksList_ok r h ws.notebooks ws.notebooks
  simp [Paperwork.update, hd, Except.map]

/-- Remote whose note writes always succeed while every fetch fails. -/
def rC5ok : Remote :=
  { notebook := fun _ => none, note := fun _ _ => none,
    putNotebook := fun _ => none, putNote := fun _ => some "1",
    listTags := none, listNotebooks := none, listNotebookNotes := fun _ => none }

/-- Witness for `workspace_update_ok_when_note_writes_succeed` on the
two-note workspace against a remote whose fetches all fail. -/
theorem workspace_update_ok_witness :
    (Paperwork.update rC5ok wsC5).2 ≠ Except.error () :=
  workspace_update_ok_when_note_writes_succeed rC5ok wsC5 (fun _ => rfl)

/-! ## C9 -/

/-- Remote for the C9 scenario: one tag (id 1), one notebook (id 10), one
note (id 5) carrying tag 1 on the wire. -/
def rC9 : Remote :=
  { notebook := fun _ => none, note := fun _ _ => none,
    putNotebook := fun _ => none, putNote := fun _ => none,
    listTags := some [{ id := 1, title := "work", visibility := 0 }],
    listNotebooks := some [{ id := 10, title := "NB", type := 0 }],
    listNotebookNotes := fun _ =>
      some [{ id := 5, title := "note5", content := "c", updated_at := "100",
              tags := [1] }] }

/-- The empty workspace. -/
def wsEmpty : Paperwork := { notebooks := [], tags := [] }

/-- C9 (code bug): after a `download()` that attaches tag 1 to note 5 (the
note's tag set ends up `[1]`), `Tag.get_notes` on tag 1 still returns the
empty relationship set — no statement in the source ever adds a note to
`Tag.notes` (`Note.add_tags` only writes `self.tags`), so the "notes under
this tag" query is always empty, contradicting the claim that it returns
exactly the notes whose tag sets contain the tag. -/
theorem download_never_populates_tag_notes :
    Except.map (fun ws' =>
        ((dictGet ws'.tags 1).map Tag.get_notes,
         (dictGet ws'.notebooks 10).bind
           (fun nb => (dictGet nb.notes 5).map Note.tags)))
      (Paperwork.download rC9 wsEmpty)
      = Except.ok (some [], some [1]) := by
  rfl

end Paperworks
